import Mathlib

/-!
# Verification of the plant-store CRUD service

Shallow embedding of `server/app.py` and `server/models.py`:
the JSON data the handlers consume, the Python-level semantics the
handler code relies on (truthiness, `in`, `.get`, `str`, `Decimal`),
the persisted store of `Plant` rows, and the four request handlers.
Theorems at the end settle the specification claims.
-/

/-- A JSON value as produced by `request.get_json()`.  JSON numeric
literals are kept exact as `num m s`, denoting `m / 10^s` (the decimal
literal with `s` digits after the point); the decimal literals the
service sees round-trip exactly through Python's `float`/`int`, so this
avoids binary floating point without changing observable behaviour. -/
inductive Json where
  | null : Json
  | bool (b : Bool) : Json
  | num (m : Int) (s : Nat) : Json
  | str (s : String) : Json
  | arr (xs : List Json) : Json
  | obj (kvs : List (String × Json)) : Json

/-- Python truthiness of a JSON value: `None`, `False`, zero, the empty
string, the empty list and the empty dict are falsy (`not x` in
`app.py` lines 85 and 93). -/
def Json.isFalsy : Json → Bool
  | .null => true
  | .bool b => !b
  | .num m _ => m == 0
  | .str s => s.data.isEmpty
  | .arr xs => xs.isEmpty
  | .obj kvs => kvs.isEmpty

/-- Lookup of a key in the key/value list of a JSON object, later
occurrences winning, as in a Python dict built by `json` parsing. -/
def lookupLast : List (String × Json) → String → Option Json
  | [], _ => none
  | kv :: t, k =>
    match lookupLast t k with
    | some r => some r
    | none => if kv.1 == k then some kv.2 else none

/-- The exceptions relevant to `create_plant`:
`decimal.InvalidOperation` (raised by `Decimal` on a malformed numeric
string), and `ValueError` / `TypeError` (the two types its
`except (ValueError, TypeError)` clause at `app.py:99` catches). -/
inductive PyExc where
  | invalidOperation : PyExc
  | valueError : PyExc
  | typeError : PyExc
deriving Repr, DecidableEq

/-- Check that `pat` is a prefix of `hay`. -/
def prefixChars : List Char → List Char → Bool
  | [], _ => true
  | _ :: _, [] => false
  | a :: pas, b :: hs => a == b && prefixChars pas hs

/-- Substring containment on character lists (Python `in` on two
strings). -/
def containsSub (hay pat : List Char) : Bool :=
  prefixChars pat hay ||
    match hay with
    | [] => false
    | _ :: t => containsSub t pat

/-- Python `k in data` (`app.py:85`): key membership for a dict, value
membership for a list, substring test for a string; for the remaining
types (`None`, bool, numbers) `in` raises `TypeError`. -/
def pyContains (data : Json) (k : String) : Except PyExc Bool :=
  match data with
  | .obj kvs => .ok (kvs.any (fun kv => kv.1 == k))
  | .arr xs =>
    .ok (xs.any (fun v => match v with | .str s => s == k | _ => false))
  | .str s => .ok (containsSub s.data k.data)
  | _ => .error .typeError

/-- Model of `all(k in data for k in ('name', 'image', 'price'))` at
`app.py:85`: the generator short-circuits, and a `TypeError` from `in`
propagates out of the handler. -/
def checkRequiredKeys (data : Json) : Except PyExc Bool :=
  match pyContains data "name" with
  | .error e => .error e
  | .ok false => .ok false
  | .ok true =>
    match pyContains data "image" with
    | .error e => .error e
    | .ok false => .ok false
    | .ok true => pyContains data "price"

/-- Python `data.get(k)` (`app.py:88`-`90`): for a dict, the value
bound to `k` (or `None` when absent); any other type has no `.get`
attribute, raising `AttributeError` — modelled as a `TypeError`-class
failure since it is equally uncaught by the handler. -/
def dictGet (data : Json) (k : String) : Except PyExc Json :=
  match data with
  | .obj kvs =>
    match lookupLast kvs k with
    | some v => .ok v
    | none => .ok .null
  | _ => .error .typeError

/-- Model of `price_str is None` (`app.py:93`). -/
def Json.isNull : Json → Bool
  | .null => true
  | _ => false

/-- A single-quote character, used by Python `repr` of strings. -/
def squote : String := String.singleton (Char.ofNat 39)

/-- Zero-pad a digit string on the left to length `s`. -/
def padZeros (t : String) (s : Nat) : String :=
  String.mk (List.replicate (s - t.length) (Char.ofNat 48)) ++ t

/-- Python's textual form of the numeric literal `m / 10^s`: `str` of
the `int` when `s = 0`, otherwise the decimal with `s` digits after the
point, matching `str(float)` on the short literals in scope. -/
def renderScaled (m : Int) (s : Nat) : String :=
  if s = 0 then toString m
  else
    (if m < 0 then "-" else "") ++ toString (m.natAbs / 10 ^ s) ++ "."
      ++ padZeros (toString (m.natAbs % 10 ^ s)) s

mutual

/-- Python `repr` of a JSON value (used for elements nested inside a
list or dict when `str` is taken of the container). -/
def pyRepr : Json → String
  | .null => "None"
  | .bool true => "True"
  | .bool false => "False"
  | .num m s => renderScaled m s
  | .str s => squote ++ s ++ squote
  | .arr xs => "[" ++ pyReprList xs ++ "]"
  | .obj kvs => "\x7b" ++ pyReprKvs kvs ++ "\x7d"

/-- Comma-separated `repr`s of list elements. -/
def pyReprList : List Json → String
  | [] => ""
  | [x] => pyRepr x
  | x :: y :: t => pyRepr x ++ ", " ++ pyReprList (y :: t)

/-- Comma-separated `repr`s of dict entries. -/
def pyReprKvs : List (String × Json) → String
  | [] => ""
  | [(k, v)] => squote ++ k ++ squote ++ ": " ++ pyRepr v
  | (k, v) :: e :: t => squote ++ k ++ squote ++ ": " ++ pyRepr v ++ ", " ++ pyReprKvs (e :: t)

end

/-- Python `str(price_str)` (`app.py:98`): the string itself for a
string, `repr`-style text otherwise. -/
def pyStr : Json → String
  | .str s => s
  | v => pyRepr v

/-- A finite decimal value `mant * 10 ^ expo`, the result of a
successful `Decimal` conversion. -/
structure DecVal where
  mant : Int
  expo : Int
deriving DecidableEq

/-- Numeric value of a digit run. -/
def digitsToNat (cs : List Char) : Nat :=
  cs.foldl (fun a c => a * 10 + (c.toNat - 48)) 0

/-- Optional exponent part `('e' | 'E') [sign] digits` of the decimal
numeric-string grammar; the input must be consumed completely. -/
def parseExponent (cs : List Char) : Option Int :=
  match cs with
  | [] => some 0
  | c :: t =>
    if c == 'e' || c == 'E' then
      let (sgn, t2) : Int × List Char :=
        match t with
        | c2 :: t3 => if c2 == '+' then (1, t3) else if c2 == '-' then (-1, t3) else (1, t)
        | [] => (1, t)
      let (ds, rest) := t2.span Char.isDigit
      if ds.isEmpty || !rest.isEmpty then none
      else some (sgn * (digitsToNat ds : Int))
    else none

/-- The decimal numeric-string grammar of Python's `decimal` module:
`[sign] (digits [. digits] | . digits) [exponent]`, evaluated exactly. -/
def parseDecCore (cs : List Char) : Option DecVal :=
  let (sgn, cs1) : Int × List Char :=
    match cs with
    | c :: t => if c == '+' then (1, t) else if c == '-' then (-1, t) else (1, cs)
    | [] => (1, cs)
  let (ip, cs2) := cs1.span Char.isDigit
  let (fp, cs3) : List Char × List Char :=
    match cs2 with
    | c :: t => if c == '.' then t.span Char.isDigit else ([], cs2)
    | [] => ([], cs2)
  if ip.isEmpty && fp.isEmpty then none
  else
    match parseExponent cs3 with
    | none => none
    | some e => some ⟨sgn * (digitsToNat (ip ++ fp) : Int), e - fp.length⟩

/-- Model of `Decimal(s)` for a string argument (`app.py:98`): leading and
trailing whitespace is tolerated; a malformed numeric string raises
`decimal.InvalidOperation` (a subclass of `ArithmeticError`) — never
`ValueError` or `TypeError`, so the `except` clause at `app.py:99`
cannot fire for it.  The special values (`NaN`, `Infinity`), which
`Decimal` also accepts, are outside the model: no claim exercises them
and their persistence behaviour is engine-specific. -/
def trimChars (cs : List Char) : List Char :=
  ((cs.dropWhile Char.isWhitespace).reverse.dropWhile Char.isWhitespace).reverse

def decimalFromStr (s : String) : Except PyExc DecVal :=
  match parseDecCore (trimChars s.data) with
  | some d => .ok d
  | none => .error .invalidOperation

/-- Floor division of `n` by `d` with ties rounded to the even
quotient. -/
def roundHalfEvenDiv (n : Int) (d : Nat) : Int :=
  let q := Int.fdiv n d
  let r := n - q * d
  if 2 * r < d then q
  else if 2 * r > d then q + 1
  else if q % 2 = 0 then q else q + 1

/-- Quantisation of a parsed decimal to the store's `Numeric(10, 2)`
column (`models.py:15`): the value in cents, ties rounded to even as in
`decimal`'s default context.  Exact whenever the input has at most two
fractional digits. -/
def centsOf (d : DecVal) : Int :=
  if 0 ≤ d.expo + 2 then d.mant * 10 ^ (d.expo + 2).toNat
  else roundHalfEvenDiv d.mant (10 ^ (-(d.expo + 2)).toNat)

/-- A persisted row of the `plants` table (`models.py:9`-`15`):
integer primary key, `name` and `image` as supplied in the request
(SQLite stores dynamic values as given), and `price` as the exact
number of cents held by the `Numeric(10, 2)` column. -/
structure Plant where
  id : Nat
  name : Json
  image : Json
  price : Int

/-- The persisted state: `plants` is the table content in insertion
order.  Modelled from the spec: id assignment is performed by the
database engine, which is not part of the repository; following the
spec — "`id`: ... assigned by the store on creation", "`id` is unique
and never reused" — it is the monotone counter `nextId`, incremented
once per successful insert and never decremented. -/
structure Store where
  plants : List Plant
  nextId : Nat

/-- The freshly initialised store: empty table, first id 1. -/
def Store.empty : Store := ⟨[], 1⟩

/-- Decimal string of a cents value with its two fractional digits,
as the `Numeric(10, 2)` column reads back (e.g. `1150 ↦ "11.50"`). -/
def renderCents (c : Int) : String :=
  (if c < 0 then "-" else "") ++ toString (c.natAbs / 100) ++ "."
    ++ String.mk [Nat.digitChar (c.natAbs / 10 % 10), Nat.digitChar (c.natAbs % 10)]

/-- Serialization `Plant.to_dict()` via `SerializerMixin`, as observed on the wire:
`id`, `name`, `image` as stored, and `price` rendered as the decimal
string of the scale-2 column value. -/
def Plant.to_dict (p : Plant) : Json :=
  .obj [("id", .num p.id 0), ("name", p.name), ("image", p.image),
        ("price", .str (renderCents p.price))]

/-- An HTTP response: status code and JSON body. -/
structure Response where
  status : Nat
  body : Json

/-- Response `jsonify({"error": message})` with the given status.  The
error handlers at `app.py:26`-`42` compute `message` as
`str(error) if isinstance(error, Exception) else <generic text>`; the
routes always call them directly with an f-string or `str(e)` argument,
and a `str` is never an `Exception`, so every such call substitutes the
generic text for the message the route built. -/
def errorResponse (status : Nat) (msg : String) : Response :=
  ⟨status, .obj [("error", .str msg)]⟩

/-- The body `not_found` (`app.py:27`-`30`) actually produces for the
string arguments passed at `app.py:71` and `app.py:128`: the
`isinstance(error, Exception)` test fails, so the generic
`"Resource not found"` replaces the built message and the id is
dropped. -/
def notFoundResponse : Response :=
  errorResponse 404 "Resource not found"

/-- The body `bad_request` (`app.py:33`-`36`) actually produces for the
string arguments passed at `app.py:86`, `94`, `100` and `113`: the
`isinstance(error, Exception)` test fails, so the generic
`"Bad Request"` replaces the built message. -/
def badRequestResponse : Response :=
  errorResponse 400 "Bad Request"

/-- The body `internal_server_error` (`app.py:39`-`42`) actually
produces for the `str(e)` arguments passed at `app.py:62`, `116` and
`138`: the `isinstance(error, Exception)` test fails, so the generic
`"Internal Server Error"` replaces the exception text. -/
def serverErrorResponse : Response :=
  errorResponse 500 "Internal Server Error"

/-- The response Flask produces when a handler raises an exception no
`except` clause catches: the registered 500 handler receives the
wrapping `werkzeug` `InternalServerError` (a genuine `Exception`, so
here `str(error)` is kept) and renders its description. -/
def uncaughtResponse : Response :=
  errorResponse 500 "500 Internal Server Error: The server encountered an internal error and was unable to complete your request. Either the server is overloaded or there is an error in the application."

/-- Outcome of `db.session.commit()` in a mutating handler, injected
as a parameter: the commit succeeds, raises `IntegrityError`, or
raises some other exception carrying message `msg`.  On failure the
handler calls `db.session.rollback()`, so the persisted state reverts
to the pre-request state. -/
inductive CommitOutcome where
  | ok : CommitOutcome
  | integrityError : CommitOutcome
  | otherError (msg : String) : CommitOutcome

/-- Handler for `GET /plants` (`app.py:51`-`62`): every row, serialized, in table
order. -/
def get_plants (st : Store) : Response :=
  ⟨200, .arr (st.plants.map Plant.to_dict)⟩

/-- Handler for `GET /plants/<int:id>` (`app.py:65`-`77`): primary-key
lookup; when absent, `not_found(f"Plant with id {id} not found")`,
whose string argument is discarded for the generic 404 body. -/
def get_plant_by_id (st : Store) (id : Nat) : Response :=
  match st.plants.find? (fun p => p.id == id) with
  | none => notFoundResponse
  | some plant => ⟨200, plant.to_dict⟩

/-- Handler for `POST /plants` (`app.py:80`-`116`).  Returns the response and the
persisted state after the request; `commit` is the injected outcome of
`db.session.commit()`.  Every `bad_request(...)` call passes a string,
so each 400 carries the generic `"Bad Request"` body.  The branch for
`ValueError`/`TypeError` from the `Decimal` conversion mirrors
`app.py:99`-`100`; since the conversion only ever raises
`InvalidOperation`, that branch is dead and a malformed price
propagates as an uncaught exception (500). -/
def create_plant (st : Store) (data : Json) (commit : CommitOutcome) : Response × Store :=
  if data.isFalsy then
    (badRequestResponse, st)
  else
    match checkRequiredKeys data with
    | .error _ => (uncaughtResponse, st)
    | .ok false => (badRequestResponse, st)
    | .ok true =>
      match dictGet data "name", dictGet data "image", dictGet data "price" with
      | .ok name, .ok image, .ok price_str =>
        if name.isFalsy || image.isFalsy || price_str.isNull then
          (badRequestResponse, st)
        else
          match decimalFromStr (pyStr price_str) with
          | .error e =>
            if e == PyExc.valueError || e == PyExc.typeError then
              (badRequestResponse, st)
            else
              (uncaughtResponse, st)
          | .ok d =>
            match commit with
            | .ok =>
              let new_plant : Plant := ⟨st.nextId, name, image, centsOf d⟩
              (⟨201, new_plant.to_dict⟩, ⟨st.plants ++ [new_plant], st.nextId + 1⟩)
            | .integrityError =>
              (badRequestResponse, st)
            | .otherError _ => (serverErrorResponse, st)
      | _, _, _ => (uncaughtResponse, st)

/-- Handler for `DELETE /plants/<int:id>` (`app.py:122`-`138`):
primary-key lookup; generic 404 body when absent (string argument to
`not_found` discarded); otherwise delete and commit, rolling back to
the pre-request state on any commit failure (`IntegrityError`
included: the handler's only `except` clause catches `Exception`, and
`internal_server_error(str(e))` yields the generic 500 body). -/
def delete_plant (st : Store) (id : Nat) (commit : CommitOutcome) : Response × Store :=
  match st.plants.find? (fun p => p.id == id) with
  | none => (notFoundResponse, st)
  | some _ =>
    match commit with
    | .ok =>
      (⟨200, .obj [("message", .str ("Plant with id " ++ toString id ++ " successfully deleted"))]⟩,
       ⟨st.plants.filter (fun p => p.id != id), st.nextId⟩)
    | .integrityError => (serverErrorResponse, st)
    | .otherError _ => (serverErrorResponse, st)

/-- One request to the service, with the outcome of the commit
injected for the mutating handlers. -/
inductive Request where
  | listPlants : Request
  | getPlant (id : Nat) : Request
  | createPlant (body : Json) (commit : CommitOutcome) : Request
  | deletePlant (id : Nat) (commit : CommitOutcome) : Request

/-- Dispatch of one request to its handler; the read-only handlers
leave the persisted state untouched. -/
def applyRequest (st : Store) : Request → Response × Store
  | .listPlants => (get_plants st, st)
  | .getPlant id => (get_plant_by_id st id, st)
  | .createPlant body c => create_plant st body c
  | .deletePlant id c => delete_plant st id c

/-- Persisted state after serving a sequence of requests. -/
def runRequests (st : Store) : List Request → Store
  | [] => st
  | r :: rs => runRequests (applyRequest st r).2 rs

/-- Contribution of one request to the successful-create count: 1 when
it is a create answered 201. -/
def createFlag (st : Store) : Request → Nat
  | .createPlant body c => if (create_plant st body c).1.status == 201 then 1 else 0
  | _ => 0

/-- Contribution of one request to the successful-delete count: 1 when
it is a delete answered 200. -/
def deleteFlag (st : Store) : Request → Nat
  | .deletePlant id c => if (delete_plant st id c).1.status == 200 then 1 else 0
  | _ => 0

/-- Number of requests in the sequence answered 201 by the create
handler. -/
def countCreates (st : Store) : List Request → Nat
  | [] => 0
  | r :: rs => createFlag st r + countCreates (applyRequest st r).2 rs

/-- Number of delete requests in the sequence answered 200. -/
def countDeletes (st : Store) : List Request → Nat
  | [] => 0
  | r :: rs => deleteFlag st r + countDeletes (applyRequest st r).2 rs

/-- Id the store assigns while serving one request: the current
counter value when the request is a create answered 201, nothing
otherwise. -/
def assignedHead (st : Store) : Request → List Nat
  | .createPlant body c => if (create_plant st body c).1.status == 201 then [st.nextId] else []
  | _ => []

/-- Ids the store assigns to plants created during the sequence, in
order of creation. -/
def assignedIds (st : Store) : List Request → List Nat
  | [] => []
  | r :: rs => assignedHead st r ++ assignedIds (applyRequest st r).2 rs

/-- Number of records in the array returned by `GET /plants`. -/
def listedCount (st : Store) : Nat :=
  match (get_plants st).body with
  | .arr xs => xs.length
  | _ => 0

/-- Well-formedness of the persisted state: every row id is below the
id counter, and row ids are pairwise distinct (primary key). -/
def Store.WF (st : Store) : Prop :=
  (∀ p ∈ st.plants, p.id < st.nextId) ∧ st.plants.Pairwise (fun p q => p.id ≠ q.id)

/-- Lookup of a field of a serialized JSON object (used to read the
`price` field of a response body). -/
def jsonField (j : Json) (k : String) : Option Json :=
  match j with
  | .obj kvs => lookupLast kvs k
  | _ => none

/-- The tail of `create_plant` after the required-key check, as a
function of the three looked-up values (used to factor proofs about
dict bodies; `create_plant_obj_eval` proves it agrees with the
handler). -/
def createPost (st : Store) (c : CommitOutcome) :
    Option Json → Option Json → Option Json → Response × Store
  | some name, some image, some priceVal =>
    if name.isFalsy || image.isFalsy || priceVal.isNull then
      (badRequestResponse, st)
    else
      match decimalFromStr (pyStr priceVal) with
      | .error e =>
        if e == PyExc.valueError || e == PyExc.typeError then
          (badRequestResponse, st)
        else (uncaughtResponse, st)
      | .ok d =>
        match c with
        | .ok =>
          (⟨201, (Plant.mk st.nextId name image (centsOf d)).to_dict⟩,
           ⟨st.plants ++ [Plant.mk st.nextId name image (centsOf d)], st.nextId + 1⟩)
        | .integrityError => (badRequestResponse, st)
        | .otherError _ => (serverErrorResponse, st)
  | _, _, _ => (badRequestResponse, st)

/-- Invariant: id `i` is absent from the table and below the id
counter; preserved by every request, so a deleted id never
resurfaces. -/
def AbsentInv (i : Nat) (st : Store) : Prop :=
  i < st.nextId ∧ ∀ q ∈ st.plants, q.id ≠ i

/-- Invariant: every row with id `i` carries price `pr` and `i` is
below the id counter; preserved by every request, so a created record
is read-only until deleted. -/
def PriceInv (i : Nat) (pr : Int) (st : Store) : Prop :=
  i < st.nextId ∧ ∀ q ∈ st.plants, q.id = i → q.price = pr


/-- The Aloe creation payload of the spec's concrete scenario, with
the price given as the JSON numeric literal 11.5. -/
def aloeBody115 : Json :=
  .obj [("name", .str "Aloe"), ("image", .str "./images/aloe.jpg"),
        ("price", .num 115 1)]

/-- A creation payload whose price is the non-numeric string "abc". -/
def badPriceBody : Json :=
  .obj [("name", .str "Aloe"), ("image", .str "./images/aloe.jpg"),
        ("price", .str "abc")]

theorem any_key_eq_lookupLast_isSome (kvs : List (String × Json)) (k : String) :
    (kvs.any (fun kv => kv.1 == k)) = (lookupLast kvs k).isSome := by
  induction kvs with
  | nil => rfl
  | cons kv t ih =>
    simp only [List.any_cons, lookupLast, ih]
    cases h : lookupLast t k with
    | some r => simp
    | none =>
      cases hk : (kv.1 == k) <;> simp [hk]

theorem checkRequiredKeys_obj (kvs : List (String × Json)) :
    checkRequiredKeys (.obj kvs) =
      .ok ((lookupLast kvs "name").isSome && ((lookupLast kvs "image").isSome
        && (lookupLast kvs "price").isSome)) := by
  simp only [checkRequiredKeys, pyContains, any_key_eq_lookupLast_isSome]
  cases (lookupLast kvs "name").isSome <;>
    cases (lookupLast kvs "image").isSome <;>
      cases (lookupLast kvs "price").isSome <;> simp

theorem lookupLast_ne_nil {kvs : List (String × Json)} {k : String} {v : Json}
    (h : lookupLast kvs k = some v) : kvs ≠ [] := by
  intro hnil
  subst hnil
  simp [lookupLast] at h

theorem create_plant_cases (st : Store) (data : Json) (c : CommitOutcome) :
    (∃ p : Plant, p.id = st.nextId ∧
       create_plant st data c = (⟨201, p.to_dict⟩, ⟨st.plants ++ [p], st.nextId + 1⟩))
    ∨ ((create_plant st data c).1.status ≠ 201 ∧ (create_plant st data c).2 = st) := by
  unfold create_plant
  split
  · right; exact ⟨by simp [badRequestResponse, notFoundResponse, serverErrorResponse, errorResponse], rfl⟩
  split
  · right; exact ⟨by simp [uncaughtResponse, errorResponse], rfl⟩
  · right; exact ⟨by simp [badRequestResponse, notFoundResponse, serverErrorResponse, errorResponse], rfl⟩
  split
  · split
    · right; exact ⟨by simp [badRequestResponse, notFoundResponse, serverErrorResponse, errorResponse], rfl⟩
    split
    · split
      · right; exact ⟨by simp [badRequestResponse, notFoundResponse, serverErrorResponse, errorResponse], rfl⟩
      · right; exact ⟨by simp [uncaughtResponse, errorResponse], rfl⟩
    split
    · left; exact ⟨_, rfl, rfl⟩
    · right; exact ⟨by simp [badRequestResponse, notFoundResponse, serverErrorResponse, errorResponse], rfl⟩
    · right; exact ⟨by simp [badRequestResponse, notFoundResponse, serverErrorResponse, errorResponse], rfl⟩
  · right; exact ⟨by simp [uncaughtResponse, errorResponse], rfl⟩

theorem delete_plant_cases (st : Store) (id : Nat) (c : CommitOutcome) :
    (∃ p : Plant, st.plants.find? (fun q => q.id == id) = some p ∧
       delete_plant st id c =
         (⟨200, .obj [("message",
             .str ("Plant with id " ++ toString id ++ " successfully deleted"))]⟩,
          ⟨st.plants.filter (fun q => q.id != id), st.nextId⟩))
    ∨ ((delete_plant st id c).1.status ≠ 200 ∧ (delete_plant st id c).2 = st) := by
  unfold delete_plant
  split
  · right; exact ⟨by simp [badRequestResponse, notFoundResponse, serverErrorResponse, errorResponse], rfl⟩
  next p hp =>
    split
    · left; exact ⟨p, hp, rfl⟩
    · right; exact ⟨by simp [badRequestResponse, notFoundResponse, serverErrorResponse, errorResponse], rfl⟩
    · right; exact ⟨by simp [badRequestResponse, notFoundResponse, serverErrorResponse, errorResponse], rfl⟩

theorem WF_create (st : Store) (data : Json) (c : CommitOutcome) (h : st.WF) :
    ((create_plant st data c).2).WF := by
  rcases create_plant_cases st data c with ⟨p, hid, heq⟩ | ⟨_, heq⟩
  · rw [heq]
    constructor
    · intro q hq
      rcases List.mem_append.mp hq with hq | hq
      · exact Nat.lt_succ_of_lt (h.1 q hq)
      · rcases List.mem_singleton.mp hq with rfl
        rw [hid]; exact Nat.lt_succ_self _
    · rw [List.pairwise_append]
      refine ⟨h.2, List.pairwise_singleton _ _, ?_⟩
      intro a ha b hb
      rcases List.mem_singleton.mp hb with rfl
      rw [hid]
      exact Nat.ne_of_lt (h.1 a ha)
  · rw [heq]; exact h

theorem WF_delete (st : Store) (id : Nat) (c : CommitOutcome) (h : st.WF) :
    ((delete_plant st id c).2).WF := by
  rcases delete_plant_cases st id c with ⟨p, _, heq⟩ | ⟨_, heq⟩
  · rw [heq]
    constructor
    · intro q hq
      exact h.1 q (List.mem_of_mem_filter hq)
    · exact List.Pairwise.sublist (List.filter_sublist _) h.2
  · rw [heq]; exact h

theorem WF_applyRequest (st : Store) (r : Request) (h : st.WF) :
    ((applyRequest st r).2).WF := by
  cases r with
  | listPlants => exact h
  | getPlant id => exact h
  | createPlant body c => exact WF_create st body c h
  | deletePlant id c => exact WF_delete st id c h

theorem WF_runRequests (st : Store) (rs : List Request) (h : st.WF) :
    (runRequests st rs).WF := by
  induction rs generalizing st with
  | nil => exact h
  | cons r rs ih => exact ih _ (WF_applyRequest st r h)

theorem nextId_mono_apply (st : Store) (r : Request) :
    st.nextId ≤ ((applyRequest st r).2).nextId := by
  cases r with
  | listPlants => exact Nat.le_refl _
  | getPlant id => exact Nat.le_refl _
  | createPlant body c =>
    rcases create_plant_cases st body c with ⟨p, _, heq⟩ | ⟨_, heq⟩
    · show st.nextId ≤ ((create_plant st body c).2).nextId
      rw [heq]; exact Nat.le_succ _
    · show st.nextId ≤ ((create_plant st body c).2).nextId
      rw [heq]
  | deletePlant id c =>
    rcases delete_plant_cases st id c with ⟨p, _, heq⟩ | ⟨_, heq⟩
    · show st.nextId ≤ ((delete_plant st id c).2).nextId
      rw [heq]
    · show st.nextId ≤ ((delete_plant st id c).2).nextId
      rw [heq]

theorem runRequests_inv (P : Store → Prop)
    (hstep : ∀ st r, P st → P ((applyRequest st r).2))
    (st : Store) (rs : List Request) (h : P st) : P (runRequests st rs) := by
  induction rs generalizing st with
  | nil => exact h
  | cons r rs ih => exact ih _ (hstep st r h)

theorem AbsentInv_step (i : Nat) (st : Store) (r : Request) (h : AbsentInv i st) :
    AbsentInv i ((applyRequest st r).2) := by
  cases r with
  | listPlants => exact h
  | getPlant id => exact h
  | createPlant body c =>
    rcases create_plant_cases st body c with ⟨p, hid, heq⟩ | ⟨_, heq⟩
    · show AbsentInv i ((create_plant st body c).2)
      rw [heq]
      refine ⟨Nat.lt_succ_of_lt h.1, ?_⟩
      intro q hq
      rcases List.mem_append.mp hq with hq | hq
      · exact h.2 q hq
      · rcases List.mem_singleton.mp hq with rfl
        rw [hid]
        exact Ne.symm (Nat.ne_of_lt h.1)
    · show AbsentInv i ((create_plant st body c).2)
      rw [heq]; exact h
  | deletePlant id c =>
    rcases delete_plant_cases st id c with ⟨p, _, heq⟩ | ⟨_, heq⟩
    · show AbsentInv i ((delete_plant st id c).2)
      rw [heq]
      exact ⟨h.1, fun q hq => h.2 q (List.mem_of_mem_filter hq)⟩
    · show AbsentInv i ((delete_plant st id c).2)
      rw [heq]; exact h

theorem PriceInv_step (i : Nat) (pr : Int) (st : Store) (r : Request)
    (h : PriceInv i pr st) : PriceInv i pr ((applyRequest st r).2) := by
  cases r with
  | listPlants => exact h
  | getPlant id => exact h
  | createPlant body c =>
    rcases create_plant_cases st body c with ⟨p, hid, heq⟩ | ⟨_, heq⟩
    · show PriceInv i pr ((create_plant st body c).2)
      rw [heq]
      refine ⟨Nat.lt_succ_of_lt h.1, ?_⟩
      intro q hq hqi
      rcases List.mem_append.mp hq with hq | hq
      · exact h.2 q hq hqi
      · rcases List.mem_singleton.mp hq with rfl
        rw [hid] at hqi
        exact absurd hqi (Ne.symm (Nat.ne_of_lt h.1))
    · show PriceInv i pr ((create_plant st body c).2)
      rw [heq]; exact h
  | deletePlant id c =>
    rcases delete_plant_cases st id c with ⟨p, _, heq⟩ | ⟨_, heq⟩
    · show PriceInv i pr ((delete_plant st id c).2)
      rw [heq]
      exact ⟨h.1, fun q hq => h.2 q (List.mem_of_mem_filter hq)⟩
    · show PriceInv i pr ((delete_plant st id c).2)
      rw [heq]; exact h

theorem get_404_of_absent (st : Store) (i : Nat)
    (h : ∀ q ∈ st.plants, q.id ≠ i) :
    get_plant_by_id st i = notFoundResponse := by
  unfold get_plant_by_id
  have hnone : st.plants.find? (fun p => p.id == i) = none := by
    rw [List.find?_eq_none]
    intro q hq
    simpa using h q hq
  rw [hnone]

theorem get_200_shape (st : Store) (i : Nat)
    (h : (get_plant_by_id st i).status = 200) :
    ∃ q, st.plants.find? (fun p => p.id == i) = some q ∧ q.id = i ∧
      (get_plant_by_id st i).body = q.to_dict := by
  revert h
  unfold get_plant_by_id
  split
  · intro h; simp [badRequestResponse, notFoundResponse, serverErrorResponse, errorResponse] at h
  next q hq =>
    intro _
    refine ⟨q, hq, ?_, rfl⟩
    have := List.find?_some hq
    simpa using this

theorem length_filter_id (l : List Plant) (i : Nat) (p : Plant)
    (hp : l.Pairwise (fun a b => a.id ≠ b.id)) (hm : p ∈ l) (hid : p.id = i) :
    (l.filter (fun q => q.id != i)).length + 1 = l.length := by
  induction l with
  | nil => cases hm
  | cons a t ih =>
    rcases List.mem_cons.mp hm with rfl | hm2
    · have hkeep : t.filter (fun q => q.id != i) = t := by
        rw [List.filter_eq_self]
        intro q hq
        have hne : p.id ≠ q.id := (List.pairwise_cons.mp hp).1 q hq
        rw [hid] at hne
        simpa using (Ne.symm hne)
      rw [List.filter_cons]
      have : (p.id != i) = false := by simp [hid]
      rw [this]
      simp [hkeep]
    · have hne : a.id ≠ i := by
        have := (List.pairwise_cons.mp hp).1 p hm2
        rw [hid] at this
        exact this
      rw [List.filter_cons]
      have : (a.id != i) = true := by simpa using hne
      rw [this]
      simp only [if_true, List.length_cons]
      rw [← ih (List.pairwise_cons.mp hp).2 hm2]

theorem step_length (st : Store) (r : Request) (h : st.WF) :
    ((applyRequest st r).2).plants.length + deleteFlag st r
      = st.plants.length + createFlag st r := by
  cases r with
  | listPlants => simp [applyRequest, createFlag, deleteFlag]
  | getPlant id => simp [applyRequest, createFlag, deleteFlag]
  | createPlant body c =>
    rcases create_plant_cases st body c with ⟨p, _, heq⟩ | ⟨hne, heq⟩
    · have hst : ((create_plant st body c).1.status == 201) = true := by
        rw [heq]; rfl
      simp [applyRequest, createFlag, deleteFlag, heq, hst]
    · have hst : ((create_plant st body c).1.status == 201) = false := by
        exact beq_eq_false_iff_ne.mpr hne
      simp [applyRequest, createFlag, deleteFlag, heq, hst]
  | deletePlant id c =>
    rcases delete_plant_cases st id c with ⟨p, hp, heq⟩ | ⟨hne, heq⟩
    · have hpm : p ∈ st.plants := List.mem_of_find?_eq_some hp
      have hpid : p.id = id := by simpa using List.find?_some hp
      have hlen := length_filter_id st.plants id p h.2 hpm hpid
      have hst : ((delete_plant st id c).1.status == 200) = true := by
        rw [heq]; rfl
      show ((delete_plant st id c).2).plants.length
          + (if (delete_plant st id c).1.status == 200 then 1 else 0)
          = st.plants.length + 0
      rw [hst, heq]
      simp only [if_true]
      omega
    · have hst : ((delete_plant st id c).1.status == 200) = false := by
        exact beq_eq_false_iff_ne.mpr hne
      simp [applyRequest, createFlag, deleteFlag, heq, hst]

theorem run_length (st : Store) (rs : List Request) (h : st.WF) :
    (runRequests st rs).plants.length + countDeletes st rs
      = st.plants.length + countCreates st rs := by
  induction rs generalizing st with
  | nil => simp [runRequests, countCreates, countDeletes]
  | cons r rs ih =>
    have hrec := ih ((applyRequest st r).2) (WF_applyRequest st r h)
    have hstep := step_length st r h
    rw [runRequests, countCreates, countDeletes]
    omega

theorem assignedHead_bounds (st : Store) (r : Request) :
    ∀ i ∈ assignedHead st r,
      st.nextId ≤ i ∧ i < ((applyRequest st r).2).nextId := by
  cases r with
  | listPlants => intro i hi; cases hi
  | getPlant id => intro i hi; cases hi
  | deletePlant id c => intro i hi; cases hi
  | createPlant body c =>
    intro i hi
    rcases create_plant_cases st body c with ⟨p, _, heq⟩ | ⟨hne, heq⟩
    · have hst : ((create_plant st body c).1.status == 201) = true := by
        rw [heq]; rfl
      rw [assignedHead, hst] at hi
      simp only [if_true, List.mem_singleton] at hi
      subst hi
      refine ⟨Nat.le_refl _, ?_⟩
      show st.nextId < ((create_plant st body c).2).nextId
      rw [heq]
      exact Nat.lt_succ_self _
    · have hst : ((create_plant st body c).1.status == 201) = false := by
        exact beq_eq_false_iff_ne.mpr hne
      rw [assignedHead, hst] at hi
      simp at hi

theorem nextId_mono_run (st : Store) (rs : List Request) :
    st.nextId ≤ (runRequests st rs).nextId := by
  induction rs generalizing st with
  | nil => exact Nat.le_refl _
  | cons r rs ih =>
    rw [runRequests]
    exact Nat.le_trans (nextId_mono_apply st r) (ih _)

theorem assignedIds_ge (st : Store) (rs : List Request) :
    ∀ i ∈ assignedIds st rs, st.nextId ≤ i := by
  induction rs generalizing st with
  | nil => intro i hi; cases hi
  | cons r rs ih =>
    intro i hi
    rw [assignedIds] at hi
    rcases List.mem_append.mp hi with hi | hi
    · exact (assignedHead_bounds st r i hi).1
    · exact Nat.le_trans (nextId_mono_apply st r) (ih _ i hi)

theorem assignedIds_pairwise (st : Store) (rs : List Request) :
    (assignedIds st rs).Pairwise (fun a b => a ≠ b) := by
  induction rs generalizing st with
  | nil => exact List.Pairwise.nil
  | cons r rs ih =>
    rw [assignedIds, List.pairwise_append]
    refine ⟨?_, ih _, ?_⟩
    · cases r with
      | listPlants => exact List.Pairwise.nil
      | getPlant id => exact List.Pairwise.nil
      | deletePlant id c => exact List.Pairwise.nil
      | createPlant body c =>
        rw [assignedHead]
        split
        · exact List.pairwise_singleton _ _
        · exact List.Pairwise.nil
    · intro a ha b hb
      have h1 := (assignedHead_bounds st r a ha).2
      have h2 := assignedIds_ge _ rs b hb
      omega

theorem create_plant_success (st : Store) (kvs : List (String × Json))
    (name image priceVal : Json) (d : DecVal)
    (hname : lookupLast kvs "name" = some name) (hn : name.isFalsy = false)
    (himg : lookupLast kvs "image" = some image) (hi : image.isFalsy = false)
    (hprice : lookupLast kvs "price" = some priceVal)
    (hd : decimalFromStr (pyStr priceVal) = .ok d) :
    create_plant st (.obj kvs) .ok =
      (⟨201, (Plant.mk st.nextId name image (centsOf d)).to_dict⟩,
       ⟨st.plants ++ [Plant.mk st.nextId name image (centsOf d)], st.nextId + 1⟩) := by
  have hne : kvs ≠ [] := lookupLast_ne_nil hname
  have hfalsy : (Json.obj kvs).isFalsy = false := by
    cases kvs with
    | nil => exact absurd rfl hne
    | cons kv t => rfl
  have hnull : priceVal.isNull = false := by
    cases priceVal with
    | null =>
      exfalso
      have hval : decimalFromStr (pyStr Json.null) = .error .invalidOperation := by rfl
      rw [hval] at hd
      cases hd
    | bool b => rfl
    | num m s => rfl
    | str s => rfl
    | arr xs => rfl
    | obj kvs2 => rfl
  simp only [create_plant, hfalsy, Bool.false_eq_true, if_false,
    checkRequiredKeys_obj, hname, himg, hprice, Option.isSome_some,
    Bool.and_self, dictGet, hn, hi, hnull, Bool.or_self, hd]

theorem find?_append_right (l : List Plant) (p : Plant) (i : Nat)
    (h : ∀ q ∈ l, q.id ≠ i) :
    (l ++ [p]).find? (fun q => q.id == i) =
      (if p.id == i then some p else none) := by
  induction l with
  | nil => cases hpi : (p.id == i) <;> simp [List.find?, hpi]
  | cons a t ih =>
    have ha : (a.id == i) = false := by
      simpa using h a (List.mem_cons_self a t)
    rw [List.cons_append, List.find?_cons, ha]
    exact ih (fun q hq => h q (List.mem_cons_of_mem a hq))

theorem get_after_create (st : Store) (p : Plant) (hWF : st.WF)
    (hid : p.id = st.nextId) :
    get_plant_by_id ⟨st.plants ++ [p], st.nextId + 1⟩ st.nextId =
      ⟨200, p.to_dict⟩ := by
  unfold get_plant_by_id
  have h : ∀ q ∈ st.plants, q.id ≠ st.nextId :=
    fun q hq => Nat.ne_of_lt (hWF.1 q hq)
  have hfind := find?_append_right st.plants p st.nextId h
  rw [hid] at hfind
  simp only [hfind, beq_self_eq_true, if_true]

theorem digitChar_isDigit (k : Nat) (h : k < 10) :
    (Nat.digitChar k).isDigit = true := by
  interval_cases k <;> rfl

theorem renderCents_two_digits (c : Int) :
    ∃ a b : Char, renderCents c =
        ((if c < 0 then "-" else "") ++ toString (c.natAbs / 100) ++ "."
          ++ String.mk [a, b])
      ∧ a.isDigit = true ∧ b.isDigit = true := by
  refine ⟨Nat.digitChar (c.natAbs / 10 % 10), Nat.digitChar (c.natAbs % 10),
    rfl, ?_, ?_⟩
  · exact digitChar_isDigit _ (Nat.mod_lt _ (by norm_num))
  · exact digitChar_isDigit _ (Nat.mod_lt _ (by norm_num))

theorem jsonField_to_dict_price (p : Plant) :
    jsonField p.to_dict "price" = some (.str (renderCents p.price)) := by rfl

theorem listedCount_eq (st : Store) : listedCount st = st.plants.length := by
  simp [listedCount, get_plants]

theorem create_plant_obj_eval (st : Store) (c : CommitOutcome)
    (kvs : List (String × Json)) :
    create_plant st (.obj kvs) c
      = createPost st c (lookupLast kvs "name") (lookupLast kvs "image")
          (lookupLast kvs "price") := by
  cases kvs with
  | nil => rfl
  | cons kv t =>
    have hfalsy : (Json.obj (kv :: t)).isFalsy = false := rfl
    simp only [create_plant, hfalsy, Bool.false_eq_true, if_false,
      checkRequiredKeys_obj, dictGet]
    cases h1 : lookupLast (kv :: t) "name" <;>
      cases h2 : lookupLast (kv :: t) "image" <;>
        cases h3 : lookupLast (kv :: t) "price" <;>
          simp [createPost]

/-- C1: the claim asserts that a create request with non-empty `name`
and `image` whose `price` does not parse as a decimal is answered 400
with body `{"error": "Price must be a valid number."}`.  The code
instead raises `decimal.InvalidOperation` from `Decimal(str(price_str))`,
which the clause `except (ValueError, TypeError)` at `app.py:99` does
not catch, so the request is answered 500; no record is persisted.
This theorem evaluates the handler at the failing input
`{"name": "Aloe", "image": "./images/aloe.jpg", "price": "abc"}`. -/
theorem C1_nonnumeric_price_returns_500_not_400 :
    (create_plant Store.empty badPriceBody .ok).1.status = 500
    ∧ (create_plant Store.empty badPriceBody .ok).1.status ≠ 400
    ∧ (create_plant Store.empty badPriceBody .ok).2 = Store.empty :=
  ⟨rfl, by decide, rfl⟩

/-- C6: the claim asserts that GET and DELETE on an absent id answer
404 with body `{"error": "Plant with id {id} not found"}`, a message
containing that id.  The routes do build that f-string (`app.py:71`,
`app.py:128`), but `not_found` (`app.py:27`-`30`) tests
`isinstance(error, Exception)`, which is false for a `str`, and
substitutes the generic `"Resource not found"` — the id never reaches
the body.  The 404 status and the unchanged persisted state do hold.
This theorem evaluates both handlers at the failing input (id 1 on the
empty store): the body is the generic one, it does not contain the id,
and it differs from the claimed message. -/
theorem C6_absent_id_generic_404_body :
    get_plant_by_id Store.empty 1 = errorResponse 404 "Resource not found"
    ∧ delete_plant Store.empty 1 .ok
        = (errorResponse 404 "Resource not found", Store.empty)
    ∧ containsSub ("Resource not found").data (toString 1).data = false
    ∧ ("Resource not found" : String) ≠ "Plant with id 1 not found" :=
  ⟨rfl, rfl, by decide, by decide⟩

/-- C7: both mutating handlers are atomic — each request either
returns its success status (201 for create, 200 for delete) having
committed the mutation, or leaves the persisted state exactly as it
was before the request (validation failures and rolled-back commit
failures alike). -/
theorem C7_mutations_atomic (st : Store) (data : Json) (id : Nat)
    (c c2 : CommitOutcome) :
    ((create_plant st data c).1.status = 201 ∨ (create_plant st data c).2 = st)
    ∧ ((delete_plant st id c2).1.status = 200 ∨ (delete_plant st id c2).2 = st) := by
  constructor
  · rcases create_plant_cases st data c with ⟨p, _, heq⟩ | ⟨_, h2⟩
    · left; rw [heq]
    · right; exact h2
  · rcases delete_plant_cases st id c2 with ⟨p, _, heq⟩ | ⟨_, h2⟩
    · left; rw [heq]
    · right; exact h2

/-- C8: over any request sequence served from a well-formed state, the
record count returned by `GET /plants` grows by exactly the number of
creates answered 201 minus the number of deletes answered 200. -/
theorem C8_list_count_balance (st : Store) (rs : List Request) (hWF : st.WF) :
    listedCount (runRequests st rs) + countDeletes st rs
      = listedCount st + countCreates st rs := by
  rw [listedCount_eq, listedCount_eq]
  exact run_length st rs hWF

/-- Witness for C8: from the empty store, one successful create
followed by one successful delete of id 1 leaves the listed count
balanced. -/
theorem C8_witness :
    listedCount (runRequests Store.empty
        [.createPlant aloeBody115 .ok, .deletePlant 1 .ok])
      + countDeletes Store.empty [.createPlant aloeBody115 .ok, .deletePlant 1 .ok]
      = listedCount Store.empty
      + countCreates Store.empty [.createPlant aloeBody115 .ok, .deletePlant 1 .ok] :=
  C8_list_count_balance Store.empty _ ⟨fun p hp => absurd hp (List.not_mem_nil p), List.Pairwise.nil⟩

/-- C9: the ids the store assigns across any request sequence are
pairwise distinct and never reuse an id assigned before the sequence
(modelled per the spec by the monotone counter: every previously
assigned id is below the current counter). -/
theorem C9_ids_unique_never_reused (st : Store) (rs : List Request)
    (prev : List Nat) (hprev : ∀ j ∈ prev, j < st.nextId) :
    (assignedIds st rs).Pairwise (fun a b => a ≠ b)
    ∧ ∀ i ∈ assignedIds st rs, i ∉ prev := by
  refine ⟨assignedIds_pairwise st rs, ?_⟩
  intro i hi hmem
  have h1 := assignedIds_ge st rs i hi
  have h2 := hprev i hmem
  omega

/-- Witness for C9: two creates from a store whose id 1 was already
assigned (counter at 2): the new ids are distinct and avoid 1. -/
theorem C9_witness :
    (∀ j ∈ [1], j < (Store.mk [] 2).nextId)
    ∧ ((assignedIds (Store.mk [] 2)
          [.createPlant aloeBody115 .ok, .createPlant aloeBody115 .ok]).Pairwise
            (fun a b => a ≠ b)
       ∧ ∀ i ∈ assignedIds (Store.mk [] 2)
          [.createPlant aloeBody115 .ok, .createPlant aloeBody115 .ok], i ∉ [1]) :=
  ⟨by decide, C9_ids_unique_never_reused (Store.mk [] 2) _ [1] (by decide)⟩

/-- C10: the create handler reads only `name`, `image` and `price`
from the request body — two dict bodies whose lookups agree on those
three keys yield the same response and the same resulting persisted
state, whatever extra keys either contains. -/
theorem C10_extra_keys_ignored (st : Store) (c : CommitOutcome)
    (kvs1 kvs2 : List (String × Json))
    (hname : lookupLast kvs1 "name" = lookupLast kvs2 "name")
    (himg : lookupLast kvs1 "image" = lookupLast kvs2 "image")
    (hprice : lookupLast kvs1 "price" = lookupLast kvs2 "price") :
    create_plant st (.obj kvs1) c = create_plant st (.obj kvs2) c := by
  rw [create_plant_obj_eval, create_plant_obj_eval, hname, himg, hprice]

/-- Witness for C10: the Aloe payload with and without an extra
`potSize` key produces identical results on the empty store. -/
theorem C10_witness :
    create_plant Store.empty
      (.obj [("name", .str "Aloe"), ("image", .str "./images/aloe.jpg"),
             ("price", .num 115 1), ("potSize", .str "large")]) .ok
    = create_plant Store.empty
      (.obj [("name", .str "Aloe"), ("image", .str "./images/aloe.jpg"),
             ("price", .num 115 1)]) .ok :=
  C10_extra_keys_ignored Store.empty .ok _ _ rfl rfl rfl

theorem store_empty_WF : Store.empty.WF :=
  ⟨fun p hp => absurd hp (List.not_mem_nil p), List.Pairwise.nil⟩

/-- C2: for every successfully created Plant — any dict body with
truthy `name` and `image` and a price parsing to the decimal `d`,
committed successfully — the `price` field of the 201 body is the
decimal string of the stored scale-2 value `centsOf d`, and after any
subsequent request sequence a GET of the created id that answers 200
carries that same string; the rendering always has exactly two
fractional digits; in particular the JSON literal 11.5 parses to the
scale-2 value 1150, rendered "11.50" on the 201 response and on every
subsequent read. -/
theorem C2_price_round_trip (st : Store) (kvs : List (String × Json))
    (name image priceVal : Json) (d : DecVal) (rs : List Request)
    (hWF : st.WF)
    (hname : lookupLast kvs "name" = some name) (hn : name.isFalsy = false)
    (himg : lookupLast kvs "image" = some image) (hi : image.isFalsy = false)
    (hprice : lookupLast kvs "price" = some priceVal)
    (hd : decimalFromStr (pyStr priceVal) = .ok d) :
    jsonField (create_plant st (.obj kvs) .ok).1.body "price"
      = some (.str (renderCents (centsOf d)))
    ∧ ((get_plant_by_id (runRequests (create_plant st (.obj kvs) .ok).2 rs)
          st.nextId).status = 200 →
        jsonField (get_plant_by_id (runRequests (create_plant st (.obj kvs) .ok).2 rs)
          st.nextId).body "price" = some (.str (renderCents (centsOf d))))
    ∧ (∀ c : Int, ∃ a b : Char,
        renderCents c = ((if c < 0 then "-" else "") ++ toString (c.natAbs / 100) ++ "."
          ++ String.mk [a, b]) ∧ a.isDigit = true ∧ b.isDigit = true)
    ∧ decimalFromStr (pyStr (Json.num 115 1)) = .ok ⟨115, -1⟩
    ∧ renderCents (centsOf ⟨115, -1⟩) = "11.50" := by
  have hsucc := create_plant_success st kvs name image priceVal d
    hname hn himg hi hprice hd
  refine ⟨?_, ?_, renderCents_two_digits, by rfl, by rfl⟩
  · rw [hsucc]
    exact jsonField_to_dict_price _
  · have hinv : PriceInv st.nextId (centsOf d) (create_plant st (.obj kvs) .ok).2 := by
      rw [hsucc]
      refine ⟨Nat.lt_succ_self _, ?_⟩
      intro q hq hqid
      rcases List.mem_append.mp hq with hq | hq
      · exact absurd hqid (Nat.ne_of_lt (hWF.1 q hq))
      · rcases List.mem_singleton.mp hq with rfl
        rfl
    have hfin := runRequests_inv _
      (fun s r h => PriceInv_step st.nextId (centsOf d) s r h) _ rs hinv
    intro h200
    obtain ⟨q, hfq, hqid, hbody⟩ := get_200_shape _ _ h200
    have hqm := List.mem_of_find?_eq_some hfq
    have hqp : q.price = centsOf d := hfin.2 q hqm hqid
    rw [hbody, jsonField_to_dict_price, hqp]

/-- Witness for C2: the Aloe payload with JSON price 11.5 on the empty
store, no subsequent requests; the 201 body carries "11.50". -/
theorem C2_witness :
    jsonField (create_plant Store.empty
      (.obj [("name", .str "Aloe"), ("image", .str "./images/aloe.jpg"),
             ("price", .num 115 1)]) .ok).1.body "price"
      = some (.str "11.50") := by
  have h := (C2_price_round_trip Store.empty
    [("name", .str "Aloe"), ("image", .str "./images/aloe.jpg"),
     ("price", .num 115 1)]
    (.str "Aloe") (.str "./images/aloe.jpg") (.num 115 1) ⟨115, -1⟩ []
    store_empty_WF rfl rfl rfl rfl rfl (by rfl)).1
  rw [h]
  show some (Json.str (renderCents (centsOf ⟨115, -1⟩))) = some (Json.str "11.50")
  rfl

/-- C3: a create request whose body holds a truthy `name` and `image`
and a price that parses as a decimal is answered 201; the serialized
body carries the store-assigned id, which no existing record holds and
which differs from every previously assigned id (all below the
counter); and an immediate GET of that id answers 200 with the
identical record. -/
theorem C3_valid_create_201_then_get (st : Store) (kvs : List (String × Json))
    (name image priceVal : Json) (d : DecVal) (prev : List Nat)
    (hWF : st.WF)
    (hname : lookupLast kvs "name" = some name) (hn : name.isFalsy = false)
    (himg : lookupLast kvs "image" = some image) (hi : image.isFalsy = false)
    (hprice : lookupLast kvs "price" = some priceVal)
    (hd : decimalFromStr (pyStr priceVal) = .ok d)
    (hprev : ∀ j ∈ prev, j < st.nextId) :
    (create_plant st (.obj kvs) .ok).1.status = 201
    ∧ jsonField (create_plant st (.obj kvs) .ok).1.body "id" = some (.num st.nextId 0)
    ∧ (∀ q ∈ st.plants, q.id ≠ st.nextId)
    ∧ st.nextId ∉ prev
    ∧ get_plant_by_id (create_plant st (.obj kvs) .ok).2 st.nextId
        = ⟨200, (create_plant st (.obj kvs) .ok).1.body⟩ := by
  have hsucc := create_plant_success st kvs name image priceVal d
    hname hn himg hi hprice hd
  refine ⟨by rw [hsucc], ?_, ?_, ?_, ?_⟩
  · rw [hsucc]; rfl
  · intro q hq
    exact Nat.ne_of_lt (hWF.1 q hq)
  · intro hmem
    exact absurd (hprev _ hmem) (Nat.lt_irrefl _)
  · rw [hsucc]
    exact get_after_create st _ hWF rfl

/-- Witness for C3: the spec's Aloe payload with price "11.50" on the
empty store. -/
theorem C3_witness :
    (create_plant Store.empty
       (.obj [("name", .str "Aloe"), ("image", .str "./images/aloe.jpg"),
              ("price", .str "11.50")]) .ok).1.status = 201 :=
  (C3_valid_create_201_then_get Store.empty
    [("name", .str "Aloe"), ("image", .str "./images/aloe.jpg"),
     ("price", .str "11.50")]
    (.str "Aloe") (.str "./images/aloe.jpg") (.str "11.50") ⟨1150, -2⟩ []
    store_empty_WF rfl rfl rfl rfl rfl (by rfl)
    (fun j hj => absurd hj (List.not_mem_nil j))).1

/-- C4: a create request whose dict body misses one of the keys
`name`, `image`, `price`, or whose `name` or `image` is falsy, is
answered 400 and leaves the persisted state unchanged, whatever the
commit outcome would have been. -/
theorem C4_invalid_create_400_unchanged (st : Store) (kvs : List (String × Json))
    (c : CommitOutcome)
    (h : lookupLast kvs "name" = none ∨ lookupLast kvs "image" = none
       ∨ lookupLast kvs "price" = none
       ∨ (∃ v, lookupLast kvs "name" = some v ∧ v.isFalsy = true)
       ∨ (∃ v, lookupLast kvs "image" = some v ∧ v.isFalsy = true)) :
    (create_plant st (.obj kvs) c).1.status = 400
    ∧ (create_plant st (.obj kvs) c).2 = st := by
  rw [create_plant_obj_eval]
  rcases h with h | h | h | ⟨v, hv, hfv⟩ | ⟨v, hv, hfv⟩
  · rw [h]
    cases lookupLast kvs "image" <;> cases lookupLast kvs "price" <;>
      exact ⟨rfl, rfl⟩
  · rw [h]
    cases lookupLast kvs "name" <;> cases lookupLast kvs "price" <;>
      exact ⟨rfl, rfl⟩
  · rw [h]
    cases lookupLast kvs "name" <;> cases lookupLast kvs "image" <;>
      exact ⟨rfl, rfl⟩
  · rw [hv]
    cases lookupLast kvs "image" with
    | none => cases lookupLast kvs "price" <;> exact ⟨rfl, rfl⟩
    | some w =>
      cases lookupLast kvs "price" with
      | none => exact ⟨rfl, rfl⟩
      | some u => simp [createPost, hfv, badRequestResponse, errorResponse]
  · rw [hv]
    cases lookupLast kvs "name" with
    | none => cases lookupLast kvs "price" <;> exact ⟨rfl, rfl⟩
    | some w =>
      cases lookupLast kvs "price" with
      | none => exact ⟨rfl, rfl⟩
      | some u => simp [createPost, hfv, badRequestResponse, errorResponse]

/-- Witness for C4: payload with a name but no image. -/
theorem C4_witness :
    (create_plant Store.empty
       (.obj [("name", .str "Aloe"), ("price", .str "11.50")]) .ok).1.status = 400
    ∧ (create_plant Store.empty
       (.obj [("name", .str "Aloe"), ("price", .str "11.50")]) .ok).2 = Store.empty :=
  C4_invalid_create_400_unchanged Store.empty
    [("name", .str "Aloe"), ("price", .str "11.50")] .ok (Or.inr (Or.inl rfl))

/-- C5: deleting an existing id answers 200 with the success message
(built inline at `app.py:135`, so the id is in this body), removes the
record from the table, and every subsequent GET of that id — after any
interleaved requests — answers the 404 not-found response (no
resurrection). -/
theorem C5_delete_permanent (st : Store) (id : Nat) (p : Plant)
    (hWF : st.WF)
    (hfind : st.plants.find? (fun q => q.id == id) = some p)
    (rs : List Request) :
    (delete_plant st id .ok).1
      = ⟨200, .obj [("message",
          .str ("Plant with id " ++ toString id ++ " successfully deleted"))]⟩
    ∧ (∀ q ∈ (delete_plant st id .ok).2.plants, q.id ≠ id)
    ∧ get_plant_by_id (runRequests (delete_plant st id .ok).2 rs) id
        = notFoundResponse := by
  have heq : delete_plant st id .ok =
      (⟨200, .obj [("message",
          .str ("Plant with id " ++ toString id ++ " successfully deleted"))]⟩,
       ⟨st.plants.filter (fun q => q.id != id), st.nextId⟩) := by
    unfold delete_plant
    rw [hfind]
  have hpm : p ∈ st.plants := List.mem_of_find?_eq_some hfind
  have hpid : p.id = id := by simpa using List.find?_some hfind
  have hidlt : id < st.nextId := hpid ▸ hWF.1 p hpm
  have habs : AbsentInv id (delete_plant st id .ok).2 := by
    rw [heq]
    refine ⟨hidlt, ?_⟩
    intro q hq
    simpa using List.of_mem_filter hq
  have hfin := runRequests_inv _ (fun s r h => AbsentInv_step id s r h) _ rs habs
  refine ⟨by rw [heq], ?_, get_404_of_absent _ _ hfin.2⟩
  rw [heq]
  intro q hq
  simpa using List.of_mem_filter hq

/-- Witness for C5: deleting id 1 from a store holding exactly the
Aloe plant under id 1. -/
theorem C5_witness :
    (delete_plant (Store.mk [Plant.mk 1 (.str "Aloe") (.str "./images/aloe.jpg") 1150] 2)
        1 .ok).1
      = ⟨200, .obj [("message",
          .str ("Plant with id " ++ toString 1 ++ " successfully deleted"))]⟩ :=
  (C5_delete_permanent (Store.mk [Plant.mk 1 (.str "Aloe") (.str "./images/aloe.jpg") 1150] 2)
    1 (Plant.mk 1 (.str "Aloe") (.str "./images/aloe.jpg") 1150)
    (by constructor
        · intro q hq
          rcases List.mem_singleton.mp hq with rfl
          decide
        · exact List.pairwise_singleton _ _)
    rfl []).1
